import Mathlib

attribute [local semireducible] Rat.ofScientific Rat.mul Rat.inv Rat.add Rat.sub

/-!
Shallow embedding of the Apponomics tier-classification engine
(src/app_tier_classifier.py, class RedesignedAppTierClassifier).

Modelling conventions:
- Python dicts become association lists kept in the declaration order of the
  source; dict.get(k, d) becomes (List.lookup k l).getD d.
- Python floats become exact rationals (the engine only adds, multiplies and
  compares small decimal constants).
- round(x, 2) (Python round-half-to-even) becomes round2.
- The installed-apps argument is a list of AppEntry: Python is untyped and a
  non-string entry makes app.lower() raise AttributeError inside the
  normalizing list comprehension; that exception is the Except.error branch.
- behavioral_data = None in Python is replaced by {} before any lookup, so it
  is modelled by the empty association list.
-/

/-- self.neutral_apps: neutral/benchmark app taxonomy. -/
def neutral_apps : List (String × List String) := [
  ("food_delivery", ["zomato", "swiggy", "blinkit", "zepto"]),
  ("transportation", ["ola", "uber", "rapido"]),
  ("payments", ["paytm", "phonepe", "google_pay", "amazon_pay"]),
  ("ecommerce", ["flipkart", "amazon", "myntra"]),
  ("travel", ["irctc", "makemytrip", "goibibo"]),
  ("social_media", ["instagram", "facebook", "whatsapp", "telegram"]),
  ("entertainment", ["youtube", "netflix", "spotify"])]

/-- The tier_a_premium app list of self.tier_discriminators. -/
def tier_a_premium_apps : List String :=
  ["cred", "indmoney", "zerodha", "jupiter", "groww",
   "airbnb", "urban_company", "nykaa_luxe", "linkedin_premium",
   "apple_music", "taj_hotels", "binance", "wazirx",
   "adobe_creative", "notion", "figma", "slack"]

/-- The tier_b_mainstream app list of self.tier_discriminators. -/
def tier_b_mainstream_apps : List String :=
  ["meesho", "ajio", "tata_neu", "byju", "unacademy",
   "sony_liv", "magicbricks", "apna", "naukri",
   "bookmyshow", "practo", "policybazaar"]

/-- The tier_c_budget app list of self.tier_discriminators. -/
def tier_c_budget_apps : List String :=
  ["ludo_king", "sharechat", "moj", "kreditbee", "cashbean",
   "winzo", "bharatpe_merchant", "uc_browser", "snack_video",
   "likee", "mx_takatak", "josh", "chingari"]

/-- self.tier_discriminators: tier discriminator app taxonomy. -/
def tier_discriminators : List (String × List String) := [
  ("tier_a_premium", tier_a_premium_apps),
  ("tier_b_mainstream", tier_b_mainstream_apps),
  ("tier_c_budget", tier_c_budget_apps)]

/-- self.neutral_behavior_weights: (frequency_weight, aov_weight, total_spend_weight)
per neutral category that has behavioural weights. -/
def neutral_behavior_weights : List (String × (ℚ × ℚ × ℚ)) := [
  ("food_delivery", (0.05, 0.1, 0.08)),
  ("transportation", (0.05, 0.08, 0.06)),
  ("payments", (0.02, 0.15, 0.12)),
  ("ecommerce", (0.05, 0.1, 0.08))]

/-- self.discriminator_weights: (spending, geographic, lifestyle) per
discriminator category. -/
def discriminator_weights : List (String × (ℚ × ℚ × ℚ)) := [
  ("tier_a_premium", (1.0, 0.8, 0.8)),
  ("tier_b_mainstream", (0.3, 0.4, 0.5)),
  ("tier_c_budget", (-0.4, -0.5, -0.3))]

/-- The scores dict built by _analyze_discriminators: three axis accumulators
plus the matched_apps report (category name to matched app list). -/
structure DiscScores where
  spending : ℚ
  geographic : ℚ
  lifestyle : ℚ
  matched_apps : List (String × List String)
deriving DecidableEq

/-- One value of the neutral_usage dict: matched apps of the category plus the
behavioural figures used for its score. -/
structure UsageEntry where
  apps : List String
  frequency : ℚ
  aov : ℚ
  monthly_spend : ℚ
  behavioral_score : ℚ
deriving DecidableEq

/-- The scores dict built by _analyze_neutral_apps: three axis accumulators
plus the usage_patterns report. -/
structure NeutralScores where
  spending : ℚ
  geographic : ℚ
  lifestyle : ℚ
  usage_patterns : List (String × UsageEntry)
deriving DecidableEq

/-- The body of the category loop of _analyze_discriminators: record the
matched apps of the category; when some match, add the category weight triple
times the match count to the three axis accumulators. -/
def _analyze_discriminators_step (apps_lower : List String) (scores : DiscScores)
    (cat : String × List String) : DiscScores :=
  let matched := cat.2.filter (fun app => app ∈ apps_lower)
  let scores := { scores with matched_apps := scores.matched_apps ++ [(cat.1, matched)] }
  if matched.isEmpty then scores
  else
    let weights := (List.lookup cat.1 discriminator_weights).getD (0, 0, 0)
    let score_multiplier : ℚ := matched.length
    { scores with
      spending := scores.spending + weights.1 * score_multiplier,
      geographic := scores.geographic + weights.2.1 * score_multiplier,
      lifestyle := scores.lifestyle + weights.2.2 * score_multiplier }

/-- _analyze_discriminators: fold the category loop body over the
discriminator taxonomy, starting from zero scores and an empty report. -/
def _analyze_discriminators (apps_lower : List String) : DiscScores :=
  tier_discriminators.foldl (_analyze_discriminators_step apps_lower)
    { spending := 0, geographic := 0, lifestyle := 0, matched_apps := [] }

/-- The body of the category loop of _analyze_neutral_apps: for a neutral
category that has matches and a behavioural-weight entry, read
frequency/aov/monthly spend for the first matched app (with the documented
defaults 5, 200, frequency*aov), form the behavioural score, accumulate it
into the axes (geographic at 0.5, lifestyle at 0.3) and record the usage
entry. -/
def _analyze_neutral_apps_step (apps_lower : List String)
    (behavioral_data : List (String × ℚ)) (scores : NeutralScores)
    (cat : String × List String) : NeutralScores :=
  let matched := cat.2.filter (fun app => app ∈ apps_lower)
  match matched, List.lookup cat.1 neutral_behavior_weights with
  | m0 :: ms, some weights =>
    let frequency := (List.lookup (m0 ++ "_orders_per_month") behavioral_data).getD 5
    let aov := (List.lookup (m0 ++ "_avg_order_value") behavioral_data).getD 200
    let monthly_spend :=
      (List.lookup (m0 ++ "_monthly_spend") behavioral_data).getD (frequency * aov)
    let behavioral_score :=
      frequency * weights.1 + aov * weights.2.1 / 100 + monthly_spend * weights.2.2 / 1000
    { spending := scores.spending + behavioral_score,
      geographic := scores.geographic + behavioral_score * 0.5,
      lifestyle := scores.lifestyle + behavioral_score * 0.3,
      usage_patterns := scores.usage_patterns ++
        [(cat.1, { apps := m0 :: ms, frequency := frequency, aov := aov,
                   monthly_spend := monthly_spend, behavioral_score := behavioral_score })] }
  | _, _ => scores

/-- _analyze_neutral_apps: fold the category loop body over the neutral
taxonomy, starting from zero scores and an empty usage report. -/
def _analyze_neutral_apps (apps_lower : List String)
    (behavioral_data : List (String × ℚ)) : NeutralScores :=
  neutral_apps.foldl (_analyze_neutral_apps_step apps_lower behavioral_data)
    { spending := 0, geographic := 0, lifestyle := 0, usage_patterns := [] }

/-- _get_spending_tier. -/
def _get_spending_tier (score : ℚ) : String :=
  if score ≥ 4.0 then "Premium (₹50,000+ monthly)"
  else if score ≥ 1.5 then "Standard (₹15,000-50,000 monthly)"
  else "Basic (₹5,000-15,000 monthly)"

/-- _get_geographic_tier. -/
def _get_geographic_tier (score : ℚ) : String :=
  if score ≥ 0.8 then "Tier 1 City (Mumbai, Delhi, Bangalore, etc.)"
  else if score ≥ 0.3 then "Tier 2 City (Pune, Hyderabad, Chennai, etc.)"
  else "Tier 3 City (Smaller cities and towns)"

/-- _get_lifestyle_category. -/
def _get_lifestyle_category (score : ℚ) : String :=
  if score ≥ 0.6 then "Professional/Urban"
  else if score ≥ 0.2 then "Entertainment/Social"
  else "Basic/Conservative"

/-- _calculate_confidence: twice the total discriminator match count plus the
number of neutral usage entries, capped at 10 and scaled to a percentage. -/
def _calculate_confidence (discriminator_scores : DiscScores)
    (neutral_scores : NeutralScores) : ℚ :=
  let discriminator_strength :=
    (discriminator_scores.matched_apps.map (fun p => p.2.length)).sum
  let neutral_strength := neutral_scores.usage_patterns.length
  let total_strength := discriminator_strength * 2 + neutral_strength
  min ((total_strength : ℚ) / 10) 1.0 * 100

/-- Python substring test: the pattern occurs inside s. -/
def pyIn (pat s : String) : Bool := decide (pat.data <:+: s.data)

/-- _get_recommendations: fixed advisory list keyed by the spending-tier label. -/
def _get_recommendations (spending_tier : String) (geographic_tier : String)
    (lifestyle_category : String) : List String :=
  if pyIn "Premium" spending_tier then
    ["Consider premium financial apps like CRED or Zerodha",
     "High-value investment opportunities available",
     "Premium lifestyle services recommended"]
  else if pyIn "Standard" spending_tier then
    ["Balanced financial planning recommended",
     "Standard investment options suitable",
     "Moderate lifestyle services appropriate"]
  else
    ["Budget-friendly financial tools recommended",
     "Basic investment options suitable",
     "Essential lifestyle services recommended"]

/-- Python round-half-to-even of a rational to an integer. -/
def round_half_even (q : ℚ) : ℤ :=
  if q - ⌊q⌋ < 1 / 2 then ⌊q⌋
  else if q - ⌊q⌋ > 1 / 2 then ⌊q⌋ + 1
  else if Even ⌊q⌋ then ⌊q⌋ else ⌊q⌋ + 1

/-- Python round(x, 2). -/
def round2 (q : ℚ) : ℚ := (round_half_even (q * 100) : ℚ) / 100

/-- Python app.lower().replace(" ", "_") on ASCII app names: per character,
lowercase, then spaces become underscores. -/
def normalize_name (s : String) : String :=
  ⟨s.data.map (fun c => if c.toLower = ' ' then '_' else c.toLower)⟩

/-- A raw entry of the installed-apps list. Python is untyped; on a non-string
entry app.lower() raises AttributeError. -/
inductive AppEntry where
  | str (s : String)
  | nonString
deriving DecidableEq

/-- One step of the normalizing list comprehension
[app.lower().replace(" ", "_") for app in installed_apps]. -/
def normalize_app : AppEntry → Except String String
  | .str s => .ok (normalize_name s)
  | .nonString => .error "AttributeError: lower is not an attribute of a non-string"

/-- The full result dict of analyze_apps_with_behavior. -/
structure AnalysisResult where
  spending_tier : String
  geographic_tier : String
  lifestyle_category : String
  spending_score : ℚ
  geographic_score : ℚ
  lifestyle_score : ℚ
  confidence : ℚ
  discriminator_analysis : DiscScores
  neutral_analysis : NeutralScores
  recommendations : List String
deriving DecidableEq

/-- The body of analyze_apps_with_behavior after the normalizing comprehension
has succeeded. -/
def analyze_core (apps_lower : List String)
    (behavioral_data : List (String × ℚ)) : AnalysisResult :=
  let discriminator_scores := _analyze_discriminators apps_lower
  let neutral_scores := _analyze_neutral_apps apps_lower behavioral_data
  let spending_score := discriminator_scores.spending + neutral_scores.spending
  let geographic_score := discriminator_scores.geographic + neutral_scores.geographic
  let lifestyle_score := discriminator_scores.lifestyle + neutral_scores.lifestyle
  let spending_tier := _get_spending_tier spending_score
  let geographic_tier := _get_geographic_tier geographic_score
  let lifestyle_category := _get_lifestyle_category lifestyle_score
  let confidence := _calculate_confidence discriminator_scores neutral_scores
  { spending_tier := spending_tier,
    geographic_tier := geographic_tier,
    lifestyle_category := lifestyle_category,
    spending_score := round2 spending_score,
    geographic_score := round2 geographic_score,
    lifestyle_score := round2 lifestyle_score,
    confidence := round2 confidence,
    discriminator_analysis := discriminator_scores,
    neutral_analysis := neutral_scores,
    recommendations := _get_recommendations spending_tier geographic_tier lifestyle_category }

/-- The normalizing list comprehension
[app.lower().replace(" ", "_") for app in installed_apps]: left to right,
aborting on the first entry that raises. -/
def normalize_all : List AppEntry → Except String (List String)
  | [] => .ok []
  | a :: t =>
    match normalize_app a with
    | .error e => .error e
    | .ok x =>
      match normalize_all t with
      | .error e => .error e
      | .ok xs => .ok (x :: xs)

/-- analyze_apps_with_behavior: normalize every entry (failing like the Python
list comprehension on the first non-string), then run the analysis body. -/
def analyze_apps_with_behavior (installed_apps : List AppEntry)
    (behavioral_data : List (String × ℚ)) : Except String AnalysisResult :=
  match normalize_all installed_apps with
  | .error e => .error e
  | .ok apps_lower => .ok (analyze_core apps_lower behavioral_data)

/-- analyze_apps_with_behavior restricted to all-string input, where the
normalizing comprehension always succeeds. -/
def analyzeStrings (installed_apps : List String)
    (behavioral_data : List (String × ℚ)) : AnalysisResult :=
  analyze_core (installed_apps.map normalize_name) behavioral_data

/-- The total_strength quantity of _calculate_confidence, read off a result. -/
def total_strength_of (r : AnalysisResult) : ℕ :=
  (r.discriminator_analysis.matched_apps.map (fun p => p.2.length)).sum * 2 +
    r.neutral_analysis.usage_patterns.length

/-- The number of apps of a category list matched by the installed list, as a
rational. -/
def matchCount (cat_apps l : List String) : ℚ :=
  ((cat_apps.filter (fun a => a ∈ l)).length : ℚ)

/-- The usage entry the neutral analyzer produces for one category: present
exactly when the category has matched apps and a behavioural-weight entry. -/
def neutralEntry (apps_lower : List String) (behavioral_data : List (String × ℚ))
    (cat : String × List String) : Option (String × UsageEntry) :=
  match cat.2.filter (fun app => app ∈ apps_lower), List.lookup cat.1 neutral_behavior_weights with
  | m0 :: ms, some weights =>
    let frequency := (List.lookup (m0 ++ "_orders_per_month") behavioral_data).getD 5
    let aov := (List.lookup (m0 ++ "_avg_order_value") behavioral_data).getD 200
    let monthly_spend :=
      (List.lookup (m0 ++ "_monthly_spend") behavioral_data).getD (frequency * aov)
    let behavioral_score :=
      frequency * weights.1 + aov * weights.2.1 / 100 + monthly_spend * weights.2.2 / 1000
    some (cat.1, { apps := m0 :: ms, frequency := frequency, aov := aov,
                   monthly_spend := monthly_spend, behavioral_score := behavioral_score })
  | _, _ => none

/-- The usage report of the neutral analyzer over a list of categories. -/
def neutralReport (apps_lower : List String) (behavioral_data : List (String × ℚ))
    (cats : List (String × List String)) : List (String × UsageEntry) :=
  cats.filterMap (neutralEntry apps_lower behavioral_data)

/-- Sum of the behavioural scores of a usage report. -/
def reportScore (entries : List (String × UsageEntry)) : ℚ :=
  (entries.map (fun e => e.2.behavioral_score)).sum

/-- All app identifiers known to either taxonomy. -/
def all_known_apps : List String :=
  (neutral_apps.map Prod.snd).flatten ++ (tier_discriminators.map Prod.snd).flatten

/-- The behavioural-usage mapping of the zomato scenario of the spec. -/
def zomato_usage : List (String × ℚ) :=
  [("zomato_orders_per_month", 8), ("zomato_avg_order_value", 350)]

/-! ### Rounding lemmas -/

lemma round_half_even_intCast (n : ℤ) : round_half_even (n : ℚ) = n := by
  unfold round_half_even
  rw [Int.floor_intCast]
  norm_num

lemma round2_intCast (n : ℤ) : round2 (n : ℚ) = n := by
  unfold round2
  have h : (n : ℚ) * 100 = ((n * 100 : ℤ) : ℚ) := by push_cast; ring
  rw [h, round_half_even_intCast]
  push_cast
  ring

lemma round_half_even_add_even (q : ℚ) (n : ℤ) (hn : Even n) :
    round_half_even (q + n) = round_half_even q + n := by
  unfold round_half_even
  rw [Int.floor_add_int]
  have h1 : q + (n : ℚ) - ((⌊q⌋ + n : ℤ) : ℚ) = q - ⌊q⌋ := by push_cast; ring
  rw [h1]
  have h2 : Even (⌊q⌋ + n) ↔ Even ⌊q⌋ := by
    constructor
    · intro h
      have := h.sub hn
      simpa using this
    · intro h
      exact h.add hn
  split_ifs with ha hb hc hd <;> first | omega | (exfalso; tauto)

lemma round2_add_one (q : ℚ) : round2 (q + 1) = round2 q + 1 := by
  unfold round2
  have h : (q + 1) * 100 = q * 100 + ((100 : ℤ) : ℚ) := by push_cast; ring
  rw [h, round_half_even_add_even _ 100 (by decide)]
  push_cast
  ring

/-! ### Closed forms of the two analyzers -/

lemma disc_step_eq (l : List String) (s : DiscScores) (cat : String × List String) :
    _analyze_discriminators_step l s cat =
      { spending := s.spending +
          ((List.lookup cat.1 discriminator_weights).getD (0, 0, 0)).1 * matchCount cat.2 l,
        geographic := s.geographic +
          ((List.lookup cat.1 discriminator_weights).getD (0, 0, 0)).2.1 * matchCount cat.2 l,
        lifestyle := s.lifestyle +
          ((List.lookup cat.1 discriminator_weights).getD (0, 0, 0)).2.2 * matchCount cat.2 l,
        matched_apps := s.matched_apps ++ [(cat.1, cat.2.filter (fun a => a ∈ l))] } := by
  unfold _analyze_discriminators_step matchCount
  dsimp only
  split_ifs with h
  · rw [List.isEmpty_iff] at h
    rw [h]
    simp
  · rfl

lemma disc_eq (l : List String) :
    _analyze_discriminators l =
      { spending := 1.0 * matchCount tier_a_premium_apps l
          + 0.3 * matchCount tier_b_mainstream_apps l
          + -0.4 * matchCount tier_c_budget_apps l,
        geographic := 0.8 * matchCount tier_a_premium_apps l
          + 0.4 * matchCount tier_b_mainstream_apps l
          + -0.5 * matchCount tier_c_budget_apps l,
        lifestyle := 0.8 * matchCount tier_a_premium_apps l
          + 0.5 * matchCount tier_b_mainstream_apps l
          + -0.3 * matchCount tier_c_budget_apps l,
        matched_apps :=
          [("tier_a_premium", tier_a_premium_apps.filter (fun a => a ∈ l)),
           ("tier_b_mainstream", tier_b_mainstream_apps.filter (fun a => a ∈ l)),
           ("tier_c_budget", tier_c_budget_apps.filter (fun a => a ∈ l))] } := by
  unfold _analyze_discriminators tier_discriminators
  rw [List.foldl_cons, List.foldl_cons, List.foldl_cons, List.foldl_nil,
    disc_step_eq, disc_step_eq, disc_step_eq]
  have ha : List.lookup "tier_a_premium" discriminator_weights = some (1.0, 0.8, 0.8) := rfl
  have hb : List.lookup "tier_b_mainstream" discriminator_weights = some (0.3, 0.4, 0.5) := rfl
  have hc : List.lookup "tier_c_budget" discriminator_weights = some (-0.4, -0.5, -0.3) := rfl
  simp only [ha, hb, hc, Option.getD_some]
  simp only [DiscScores.mk.injEq]
  refine ⟨by ring, by ring, by ring, by simp⟩

lemma neutral_step_eq (l : List String) (u : List (String × ℚ)) (s : NeutralScores)
    (cat : String × List String) :
    _analyze_neutral_apps_step l u s cat =
      match neutralEntry l u cat with
      | none => s
      | some e =>
        { spending := s.spending + e.2.behavioral_score,
          geographic := s.geographic + e.2.behavioral_score * 0.5,
          lifestyle := s.lifestyle + e.2.behavioral_score * 0.3,
          usage_patterns := s.usage_patterns ++ [e] } := by
  unfold _analyze_neutral_apps_step neutralEntry
  dsimp only
  cases hf : cat.2.filter (fun app => app ∈ l) with
  | nil => cases List.lookup cat.1 neutral_behavior_weights <;> rfl
  | cons m0 ms => cases List.lookup cat.1 neutral_behavior_weights <;> rfl

lemma neutral_foldl_eq (l : List String) (u : List (String × ℚ))
    (cats : List (String × List String)) (s : NeutralScores) :
    cats.foldl (_analyze_neutral_apps_step l u) s =
      { spending := s.spending + reportScore (neutralReport l u cats),
        geographic := s.geographic + reportScore (neutralReport l u cats) * 0.5,
        lifestyle := s.lifestyle + reportScore (neutralReport l u cats) * 0.3,
        usage_patterns := s.usage_patterns ++ neutralReport l u cats } := by
  induction cats generalizing s with
  | nil => simp [neutralReport, reportScore]
  | cons c cs ih =>
    rw [List.foldl_cons, neutral_step_eq, ih]
    cases he : neutralEntry l u c with
    | none =>
      simp only [neutralReport, reportScore, List.filterMap_cons, he]
    | some e =>
      simp only [neutralReport, reportScore, List.filterMap_cons, he, List.map_cons,
        List.sum_cons, NeutralScores.mk.injEq, List.append_assoc, List.cons_append,
        List.nil_append]
      refine ⟨by ring, by ring, by ring, by simp⟩

/-- Closed form of _analyze_neutral_apps. -/
lemma neutral_eq (l : List String) (u : List (String × ℚ)) :
    _analyze_neutral_apps l u =
      { spending := reportScore (neutralReport l u neutral_apps),
        geographic := reportScore (neutralReport l u neutral_apps) * 0.5,
        lifestyle := reportScore (neutralReport l u neutral_apps) * 0.3,
        usage_patterns := neutralReport l u neutral_apps } := by
  unfold _analyze_neutral_apps
  rw [neutral_foldl_eq]
  simp

/-! ### Orchestration and confidence lemmas -/

lemma core_spending_score (l : List String) (u : List (String × ℚ)) :
    (analyze_core l u).spending_score =
      round2 ((_analyze_discriminators l).spending + (_analyze_neutral_apps l u).spending) := rfl

lemma core_geographic_score (l : List String) (u : List (String × ℚ)) :
    (analyze_core l u).geographic_score =
      round2 ((_analyze_discriminators l).geographic + (_analyze_neutral_apps l u).geographic) := rfl

lemma core_lifestyle_score (l : List String) (u : List (String × ℚ)) :
    (analyze_core l u).lifestyle_score =
      round2 ((_analyze_discriminators l).lifestyle + (_analyze_neutral_apps l u).lifestyle) := rfl

lemma core_spending_tier (l : List String) (u : List (String × ℚ)) :
    (analyze_core l u).spending_tier =
      _get_spending_tier
        ((_analyze_discriminators l).spending + (_analyze_neutral_apps l u).spending) := rfl

lemma core_geographic_tier (l : List String) (u : List (String × ℚ)) :
    (analyze_core l u).geographic_tier =
      _get_geographic_tier
        ((_analyze_discriminators l).geographic + (_analyze_neutral_apps l u).geographic) := rfl

lemma core_lifestyle_category (l : List String) (u : List (String × ℚ)) :
    (analyze_core l u).lifestyle_category =
      _get_lifestyle_category
        ((_analyze_discriminators l).lifestyle + (_analyze_neutral_apps l u).lifestyle) := rfl

lemma core_neutral (l : List String) (u : List (String × ℚ)) :
    (analyze_core l u).neutral_analysis = _analyze_neutral_apps l u := rfl

lemma core_disc (l : List String) (u : List (String × ℚ)) :
    (analyze_core l u).discriminator_analysis = _analyze_discriminators l := rfl

lemma confidence_core (l : List String) (u : List (String × ℚ)) :
    (analyze_core l u).confidence =
      round2 (min ((total_strength_of (analyze_core l u) : ℚ) / 10) 1 * 100) := rfl

lemma conf_round_eq (t : ℕ) :
    round2 (min ((t : ℚ) / 10) 1 * 100) = min ((t : ℚ) / 10) 1 * 100 := by
  rcases le_or_lt (10 : ℚ) (t : ℚ) with h | h
  · rw [min_eq_right ((one_le_div (by norm_num : (0:ℚ) < 10)).mpr h), one_mul,
      (by norm_num : (100 : ℚ) = ((100 : ℤ) : ℚ)), round2_intCast]
  · rw [min_eq_left ((div_le_one (by norm_num : (0:ℚ) < 10)).mpr h.le),
      (by push_cast; ring : (t : ℚ) / 10 * 100 = ((t * 10 : ℤ) : ℚ)), round2_intCast]

lemma conf_saturate (t : ℕ) (h : 10 ≤ t) :
    min ((t : ℚ) / 10) 1 * 100 = 100 := by
  rw [min_eq_right ((one_le_div (by norm_num : (0:ℚ) < 10)).mpr (by exact_mod_cast h))]
  ring

lemma normalize_all_strings (apps : List String) :
    normalize_all (apps.map AppEntry.str) = Except.ok (apps.map normalize_name) := by
  induction apps with
  | nil => rfl
  | cons a t ih => simp [normalize_all, ih, normalize_app, List.map_cons]

lemma analyze_strings_eq (apps : List String) (u : List (String × ℚ)) :
    analyze_apps_with_behavior (apps.map AppEntry.str) u =
      Except.ok (analyzeStrings apps u) := by
  unfold analyze_apps_with_behavior analyzeStrings
  rw [normalize_all_strings]

lemma normalize_all_nonstring (entries : List AppEntry)
    (h : AppEntry.nonString ∈ entries) :
    normalize_all entries =
      Except.error "AttributeError: lower is not an attribute of a non-string" := by
  induction entries with
  | nil => cases h
  | cons a t ih =>
    cases a with
    | nonString => rfl
    | str s =>
      rcases List.mem_cons.mp h with h1 | h1
      · cases h1
      · simp [normalize_all, normalize_app, ih h1]

/-! ### Congruence in the installed-app list -/

lemma filter_mem_congr {l1 l2 : List String} (h : ∀ a, a ∈ l1 ↔ a ∈ l2)
    (L : List String) :
    L.filter (fun a => a ∈ l1) = L.filter (fun a => a ∈ l2) :=
  List.filter_congr (fun a _ => decide_eq_decide.mpr (h a))

lemma matchCount_congr {l1 l2 : List String} (h : ∀ a, a ∈ l1 ↔ a ∈ l2)
    (L : List String) : matchCount L l1 = matchCount L l2 := by
  unfold matchCount
  rw [filter_mem_congr h]

lemma neutralEntry_congr {l1 l2 : List String} (h : ∀ a, a ∈ l1 ↔ a ∈ l2)
    (u : List (String × ℚ)) (cat : String × List String) :
    neutralEntry l1 u cat = neutralEntry l2 u cat := by
  unfold neutralEntry
  rw [filter_mem_congr h]

lemma filterMap_congr_fun {α β : Type} {f g : α → Option β} (L : List α)
    (h : ∀ a ∈ L, f a = g a) : L.filterMap f = L.filterMap g := by
  induction L with
  | nil => rfl
  | cons a t ih =>
    rw [List.filterMap_cons, List.filterMap_cons, h a (List.mem_cons_self a t),
      ih (fun x hx => h x (List.mem_cons_of_mem a hx))]

lemma analyze_core_congr {l1 l2 : List String} (u : List (String × ℚ))
    (h : ∀ a, a ∈ l1 ↔ a ∈ l2) :
    analyze_core l1 u = analyze_core l2 u := by
  have hd : _analyze_discriminators l1 = _analyze_discriminators l2 := by
    rw [disc_eq, disc_eq, matchCount_congr h tier_a_premium_apps,
      matchCount_congr h tier_b_mainstream_apps, matchCount_congr h tier_c_budget_apps,
      filter_mem_congr h tier_a_premium_apps, filter_mem_congr h tier_b_mainstream_apps,
      filter_mem_congr h tier_c_budget_apps]
  have hn : _analyze_neutral_apps l1 u = _analyze_neutral_apps l2 u := by
    rw [neutral_eq, neutral_eq]
    have hr : neutralReport l1 u neutral_apps = neutralReport l2 u neutral_apps :=
      filterMap_congr_fun _ (fun c _ => neutralEntry_congr h u c)
    rw [hr]
  unfold analyze_core
  rw [hd, hn]

/-! ### Appending one app to the installed list -/

lemma filter_append_single_not_mem {x : String} {L l : List String} (hx : x ∉ L) :
    L.filter (fun a => a ∈ l ++ [x]) = L.filter (fun a => a ∈ l) :=
  List.filter_congr fun a ha => decide_eq_decide.mpr (by
    have hax : a ≠ x := fun e => hx (e ▸ ha)
    simp [List.mem_append, hax])

lemma length_filter_append_single {x : String} {L l : List String}
    (hnd : L.Nodup) (hxL : x ∈ L) (hxl : x ∉ l) :
    (L.filter (fun a => a ∈ l ++ [x])).length =
      (L.filter (fun a => a ∈ l)).length + 1 := by
  induction L with
  | nil => cases hxL
  | cons b t ih =>
    rw [List.nodup_cons] at hnd
    rcases List.mem_cons.mp hxL with rfl | hxt
    · have ht : t.filter (fun a => a ∈ l ++ [x]) = t.filter (fun a => a ∈ l) :=
        filter_append_single_not_mem hnd.1
      have h1 : decide (x ∈ l ++ [x]) = true := by simp
      have h2 : decide (x ∈ l) = false := by simp [hxl]
      rw [List.filter_cons, List.filter_cons, h1, h2, ht, if_pos rfl,
        if_neg Bool.false_ne_true, List.length_cons]
    · have hbx : b ≠ x := fun e => hnd.1 (e ▸ hxt)
      rw [List.filter_cons, List.filter_cons]
      by_cases hb : b ∈ l
      · have hb1 : decide (b ∈ l ++ [x]) = true := by simp [hb]
        have hb2 : decide (b ∈ l) = true := by simp [hb]
        rw [hb1, hb2, if_pos rfl, if_pos rfl, List.length_cons, List.length_cons,
          ih hnd.2 hxt]
      · have hb1 : decide (b ∈ l ++ [x]) = false := by simp [hb, hbx]
        have hb2 : decide (b ∈ l) = false := by simp [hb]
        rw [hb1, hb2, if_neg Bool.false_ne_true, if_neg Bool.false_ne_true,
          ih hnd.2 hxt]

/-! ### Usage-pattern count is independent of behavioural data -/

lemma neutralEntry_isSome_indep (l : List String) (u1 u2 : List (String × ℚ))
    (cat : String × List String) :
    (neutralEntry l u1 cat).isSome = (neutralEntry l u2 cat).isSome := by
  unfold neutralEntry
  cases cat.2.filter (fun app => app ∈ l) with
  | nil => cases List.lookup cat.1 neutral_behavior_weights <;> rfl
  | cons m0 ms => cases List.lookup cat.1 neutral_behavior_weights <;> rfl

lemma report_length_indep (l : List String) (u1 u2 : List (String × ℚ))
    (cats : List (String × List String)) :
    (neutralReport l u1 cats).length = (neutralReport l u2 cats).length := by
  unfold neutralReport
  induction cats with
  | nil => rfl
  | cons c cs ih =>
    have h := neutralEntry_isSome_indep l u1 u2 c
    rw [List.filterMap_cons, List.filterMap_cons]
    cases h1 : neutralEntry l u1 c <;> cases h2 : neutralEntry l u2 c <;>
      rw [h1, h2] at h <;> simp_all

/-! ### Claim theorems -/

/-- C1: for the input app list ["cred", "zerodha"] with no usage data, analyze
returns discriminator contributions spending 2.0, geographic 1.6, lifestyle
1.6, zero neutral contribution, the Standard spending tier, the Tier 1 City
geographic tier, the Professional/Urban lifestyle category, and confidence
exactly 40.0. -/
theorem claim_c1_cred_zerodha_scenario :
    analyze_apps_with_behavior [AppEntry.str "cred", AppEntry.str "zerodha"] [] =
      Except.ok (analyzeStrings ["cred", "zerodha"] []) ∧
    (analyzeStrings ["cred", "zerodha"] []).discriminator_analysis.spending = 2 ∧
    (analyzeStrings ["cred", "zerodha"] []).discriminator_analysis.geographic = 1.6 ∧
    (analyzeStrings ["cred", "zerodha"] []).discriminator_analysis.lifestyle = 1.6 ∧
    (analyzeStrings ["cred", "zerodha"] []).neutral_analysis.spending = 0 ∧
    (analyzeStrings ["cred", "zerodha"] []).neutral_analysis.geographic = 0 ∧
    (analyzeStrings ["cred", "zerodha"] []).neutral_analysis.lifestyle = 0 ∧
    (analyzeStrings ["cred", "zerodha"] []).spending_tier =
      "Standard (₹15,000-50,000 monthly)" ∧
    (analyzeStrings ["cred", "zerodha"] []).geographic_tier =
      "Tier 1 City (Mumbai, Delhi, Bangalore, etc.)" ∧
    (analyzeStrings ["cred", "zerodha"] []).lifestyle_category = "Professional/Urban" ∧
    (analyzeStrings ["cred", "zerodha"] []).confidence = 40 := by
  refine ⟨rfl, ?_⟩
  decide

/-- C2: the three tier resolvers are step functions with inclusive lower
bounds: Premium iff score at least 4.0, Standard iff in [1.5, 4.0), else
Basic, and likewise for the geographic (0.8, 0.3) and lifestyle (0.6, 0.2)
thresholds; in particular 4.0 resolves to Premium and 3.999999 to Standard. -/
theorem claim_c2_tier_resolver_steps (score : ℚ) :
    (_get_spending_tier score = "Premium (₹50,000+ monthly)" ↔ 4.0 ≤ score) ∧
    (_get_spending_tier score = "Standard (₹15,000-50,000 monthly)" ↔
      1.5 ≤ score ∧ score < 4.0) ∧
    (_get_spending_tier score = "Basic (₹5,000-15,000 monthly)" ↔ score < 1.5) ∧
    (_get_geographic_tier score = "Tier 1 City (Mumbai, Delhi, Bangalore, etc.)" ↔
      0.8 ≤ score) ∧
    (_get_geographic_tier score = "Tier 2 City (Pune, Hyderabad, Chennai, etc.)" ↔
      0.3 ≤ score ∧ score < 0.8) ∧
    (_get_geographic_tier score = "Tier 3 City (Smaller cities and towns)" ↔
      score < 0.3) ∧
    (_get_lifestyle_category score = "Professional/Urban" ↔ 0.6 ≤ score) ∧
    (_get_lifestyle_category score = "Entertainment/Social" ↔
      0.2 ≤ score ∧ score < 0.6) ∧
    (_get_lifestyle_category score = "Basic/Conservative" ↔ score < 0.2) ∧
    _get_spending_tier 4.0 = "Premium (₹50,000+ monthly)" ∧
    _get_spending_tier 3.999999 = "Standard (₹15,000-50,000 monthly)" := by
  refine ⟨?_, ?_, ?_, ?_, ?_, ?_, ?_, ?_, ?_, by decide, by decide⟩ <;>
  · simp only [_get_spending_tier, _get_geographic_tier, _get_lifestyle_category, ge_iff_le]
    split_ifs with h1 h2 <;> simp_all <;> try linarith

/-- C3: the confidence equals min(total_strength / 10, 1) * 100 where
total_strength is twice the discriminator match count plus the number of
neutral categories with a behavioural match; with total_strength at least 10
the confidence is exactly 100. -/
theorem claim_c3_confidence_formula (apps : List String) (u : List (String × ℚ)) :
    (analyzeStrings apps u).confidence =
      min ((total_strength_of (analyzeStrings apps u) : ℚ) / 10) 1 * 100 ∧
    (10 ≤ total_strength_of (analyzeStrings apps u) →
      (analyzeStrings apps u).confidence = 100) := by
  have h1 : (analyzeStrings apps u).confidence =
      round2 (min ((total_strength_of (analyzeStrings apps u) : ℚ) / 10) 1 * 100) :=
    confidence_core _ _
  constructor
  · rw [h1, conf_round_eq]
  · intro h
    rw [h1, conf_round_eq, conf_saturate _ h]

/-- Witness for C3: five premium apps give total strength 10 and confidence
exactly 100. -/
theorem claim_c3_confidence_formula_witness :
    10 ≤ total_strength_of (analyzeStrings ["cred", "zerodha", "groww", "jupiter", "notion"] []) ∧
    (analyzeStrings ["cred", "zerodha", "groww", "jupiter", "notion"] []).confidence = 100 :=
  ⟨by decide,
   (claim_c3_confidence_formula ["cred", "zerodha", "groww", "jupiter", "notion"] []).2
     (by decide)⟩

/-- C4: a non-string entry in the installed-apps list makes analyze fail with
the normalization error (Python AttributeError, the input-normalization
failure of the spec); the failure is surfaced to the caller and no result is
produced. -/
theorem claim_c4_nonstring_input_fails (entries : List AppEntry)
    (u : List (String × ℚ)) (h : AppEntry.nonString ∈ entries) :
    analyze_apps_with_behavior entries u =
      Except.error "AttributeError: lower is not an attribute of a non-string" ∧
    ∀ r, analyze_apps_with_behavior entries u ≠ Except.ok r := by
  have he := normalize_all_nonstring entries h
  constructor
  · unfold analyze_apps_with_behavior
    rw [he]
  · intro r hr
    unfold analyze_apps_with_behavior at hr
    rw [he] at hr
    cases hr

/-- Witness for C4 at the list [str zomato, non-string]. -/
theorem claim_c4_nonstring_input_fails_witness :
    AppEntry.nonString ∈ [AppEntry.str "zomato", AppEntry.nonString] ∧
    analyze_apps_with_behavior [AppEntry.str "zomato", AppEntry.nonString] [] =
      Except.error "AttributeError: lower is not an attribute of a non-string" :=
  ⟨by decide, (claim_c4_nonstring_input_fails _ [] (by decide)).1⟩

lemma analyzeStrings_def (apps : List String) (u : List (String × ℚ)) :
    analyzeStrings apps u = analyze_core (apps.map normalize_name) u := rfl

lemma round2_zero : round2 0 = 0 := by
  rw [(by norm_num : (0 : ℚ) = ((0 : ℤ) : ℚ)), round2_intCast]

lemma neutralEntry_some_spec {l : List String} {u : List (String × ℚ)}
    {cat : String × List String} {c : String} {e : UsageEntry}
    (h : neutralEntry l u cat = some (c, e)) :
    cat.1 = c ∧
    ∃ w, List.lookup c neutral_behavior_weights = some w ∧
      ∃ m0 ms, e.apps = m0 :: ms ∧ cat.2.filter (fun app => app ∈ l) = m0 :: ms ∧
        e.frequency = (List.lookup (m0 ++ "_orders_per_month") u).getD 5 ∧
        e.aov = (List.lookup (m0 ++ "_avg_order_value") u).getD 200 ∧
        e.monthly_spend =
          (List.lookup (m0 ++ "_monthly_spend") u).getD (e.frequency * e.aov) ∧
        e.behavioral_score = e.frequency * w.1 + (e.aov / 100) * w.2.1 +
          (e.monthly_spend / 1000) * w.2.2 := by
  revert h
  unfold neutralEntry
  cases hf : cat.2.filter (fun app => app ∈ l) with
  | nil =>
    cases List.lookup cat.1 neutral_behavior_weights <;> (intro h; cases h)
  | cons m0 ms =>
    cases hw : List.lookup cat.1 neutral_behavior_weights with
    | none => intro h; cases h
    | some w =>
      intro h
      have h2 := Option.some.inj h
      have hc : cat.1 = c := congrArg Prod.fst h2
      have he := congrArg Prod.snd h2
      subst he
      refine ⟨hc, w, by rw [← hc]; exact hw, m0, ms, rfl, rfl, rfl, rfl, rfl, by dsimp only; ring⟩

/-- C5 counterexample: "instagram" matches the social_media neutral category
(which has no behavioural-weight entry), yet the analysis usage report is
empty, so the report does not cover every neutral category with a match. -/
theorem claim_c5_usage_report_counterexample :
    ("social_media", ["instagram", "facebook", "whatsapp", "telegram"]) ∈ neutral_apps ∧
    ["instagram", "facebook", "whatsapp", "telegram"].filter
      (fun app => app ∈ ["instagram"].map normalize_name) = ["instagram"] ∧
    (analyzeStrings ["instagram"] []).neutral_analysis.usage_patterns = [] := by
  refine ⟨by decide, by decide, by decide⟩

/-- C5 (amended): the usage report has an entry exactly for each neutral
category that has a behavioural-weight entry and at least one matched
installed app; categories without a weight entry (travel, social_media,
entertainment) never appear even when matched. -/
theorem claim_c5_usage_report_amended (apps : List String) (u : List (String × ℚ))
    (c : String) :
    (∃ e, (c, e) ∈ (analyzeStrings apps u).neutral_analysis.usage_patterns) ↔
      ∃ capps, (c, capps) ∈ neutral_apps ∧
        (List.lookup c neutral_behavior_weights).isSome ∧
        capps.filter (fun app => app ∈ apps.map normalize_name) ≠ [] := by
  have hl : (analyzeStrings apps u).neutral_analysis.usage_patterns =
      neutralReport (apps.map normalize_name) u neutral_apps := by
    rw [analyzeStrings_def, core_neutral, neutral_eq]
  rw [hl]
  unfold neutralReport
  constructor
  · rintro ⟨e, he⟩
    rcases List.mem_filterMap.mp he with ⟨⟨c1, capps⟩, hcat, hent⟩
    rcases neutralEntry_some_spec hent with ⟨hc, w, hw, m0, ms, _, hfil, _⟩
    refine ⟨capps, ?_, ?_, ?_⟩
    · rw [← hc]; exact hcat
    · rw [hw]; rfl
    · rw [hfil]; simp
  · rintro ⟨capps, hmem, hsome, hne⟩
    rcases Option.isSome_iff_exists.mp hsome with ⟨w, hw⟩
    rcases List.exists_cons_of_ne_nil hne with ⟨m0, ms, hf⟩
    have hent : ∃ e, neutralEntry (apps.map normalize_name) u (c, capps) = some (c, e) := by
      unfold neutralEntry
      dsimp only
      rw [hf, hw]
      exact ⟨_, rfl⟩
    rcases hent with ⟨e, hent⟩
    exact ⟨e, List.mem_filterMap.mpr ⟨(c, capps), hmem, hent⟩⟩

/-- C6: for an app list whose normalized entries match no known app, all
three axis scores are exactly 0, confidence is 0, and all three tiers resolve
to their lowest bucket. -/
theorem claim_c6_unknown_apps_zero (apps : List String) (u : List (String × ℚ))
    (h : ∀ a ∈ apps.map normalize_name, a ∉ all_known_apps) :
    (analyzeStrings apps u).spending_score = 0 ∧
    (analyzeStrings apps u).geographic_score = 0 ∧
    (analyzeStrings apps u).lifestyle_score = 0 ∧
    (analyzeStrings apps u).confidence = 0 ∧
    (analyzeStrings apps u).spending_tier = "Basic (₹5,000-15,000 monthly)" ∧
    (analyzeStrings apps u).geographic_tier = "Tier 3 City (Smaller cities and towns)" ∧
    (analyzeStrings apps u).lifestyle_category = "Basic/Conservative" := by
  have hfilter : ∀ L : List String, (∀ a ∈ L, a ∈ all_known_apps) →
      L.filter (fun app => app ∈ apps.map normalize_name) = [] := by
    intro L hL
    apply List.filter_eq_nil_iff.mpr
    intro a ha hmem
    exact h a (of_decide_eq_true hmem) (hL a ha)
  have hknown : ∀ cat ∈ neutral_apps, ∀ a ∈ cat.2, a ∈ all_known_apps := by decide
  have hknownA : ∀ a ∈ tier_a_premium_apps, a ∈ all_known_apps := by decide
  have hknownB : ∀ a ∈ tier_b_mainstream_apps, a ∈ all_known_apps := by decide
  have hknownC : ∀ a ∈ tier_c_budget_apps, a ∈ all_known_apps := by decide
  have hd : _analyze_discriminators (apps.map normalize_name) =
      { spending := 0, geographic := 0, lifestyle := 0,
        matched_apps := [("tier_a_premium", []), ("tier_b_mainstream", []),
          ("tier_c_budget", [])] } := by
    rw [disc_eq]
    unfold matchCount
    rw [hfilter _ hknownA, hfilter _ hknownB, hfilter _ hknownC]
    simp
  have hrep : neutralReport (apps.map normalize_name) u neutral_apps = [] := by
    unfold neutralReport
    apply List.filterMap_eq_nil_iff.mpr
    intro cat hcat
    unfold neutralEntry
    rw [hfilter cat.2 (hknown cat hcat)]
  have hn : _analyze_neutral_apps (apps.map normalize_name) u =
      { spending := 0, geographic := 0, lifestyle := 0, usage_patterns := [] } := by
    rw [neutral_eq, hrep]
    simp [reportScore]
  refine ⟨?_, ?_, ?_, ?_, ?_, ?_, ?_⟩
  · rw [analyzeStrings_def, core_spending_score, hd, hn]
    norm_num [round2_zero]
  · rw [analyzeStrings_def, core_geographic_score, hd, hn]
    norm_num [round2_zero]
  · rw [analyzeStrings_def, core_lifestyle_score, hd, hn]
    norm_num [round2_zero]
  · rw [analyzeStrings_def, confidence_core]
    have ht : total_strength_of (analyze_core (apps.map normalize_name) u) = 0 := by
      unfold total_strength_of
      rw [core_disc, core_neutral, hd, hn]
      rfl
    rw [ht]
    norm_num [round2_zero]
  · rw [analyzeStrings_def, core_spending_tier, hd, hn]
    decide
  · rw [analyzeStrings_def, core_geographic_tier, hd, hn]
    decide
  · rw [analyzeStrings_def, core_lifestyle_category, hd, hn]
    decide

/-- Witness for C6: the unknown app "reddit" produces the all-zero result. -/
theorem claim_c6_unknown_apps_zero_witness :
    (∀ a ∈ ["reddit"].map normalize_name, a ∉ all_known_apps) ∧
    (analyzeStrings ["reddit"] []).spending_score = 0 ∧
    (analyzeStrings ["reddit"] []).confidence = 0 ∧
    (analyzeStrings ["reddit"] []).spending_tier = "Basic (₹5,000-15,000 monthly)" :=
  ⟨by decide,
   (claim_c6_unknown_apps_zero ["reddit"] [] (by decide)).1,
   (claim_c6_unknown_apps_zero ["reddit"] [] (by decide)).2.2.2.1,
   (claim_c6_unknown_apps_zero ["reddit"] [] (by decide)).2.2.2.2.1⟩

/-- C7 counterexample: in the zomato scenario (8 orders, AOV 350) the
behavioural score is 0.974 as claimed, but the tiers do not all resolve to
their lowest bucket: the geographic tier is not Tier 3 City and the lifestyle
category is not Basic/Conservative. -/
theorem claim_c7_counterexample :
    (List.lookup "food_delivery"
        (analyzeStrings ["zomato"] zomato_usage).neutral_analysis.usage_patterns).map
      (fun e => e.behavioral_score) = some 0.974 ∧
    (analyzeStrings ["zomato"] zomato_usage).geographic_tier ≠
      "Tier 3 City (Smaller cities and towns)" ∧
    (analyzeStrings ["zomato"] zomato_usage).lifestyle_category ≠ "Basic/Conservative" := by
  refine ⟨by decide, by decide, by decide⟩

/-- C7 (amended): every recorded neutral usage entry has behavioural score
frequency*freq_weight + (aov/100)*aov_weight + (monthly_spend/1000)*spend_weight
with frequency, aov, monthly spend read (with defaults 5, 200, frequency*aov)
from the first matched app, and the neutral axis totals accumulate the scores
as spending += score, geographic += score*0.5, lifestyle += score*0.3; in the
zomato scenario the behavioural score is 0.974 and the spending tier is the
lowest bucket, while the geographic tier is Tier 2 City and the lifestyle
category Entertainment/Social. -/
theorem claim_c7_neutral_behavior (apps : List String) (u : List (String × ℚ)) :
    ((analyzeStrings apps u).neutral_analysis.spending =
        reportScore (analyzeStrings apps u).neutral_analysis.usage_patterns ∧
      (analyzeStrings apps u).neutral_analysis.geographic =
        reportScore (analyzeStrings apps u).neutral_analysis.usage_patterns * 0.5 ∧
      (analyzeStrings apps u).neutral_analysis.lifestyle =
        reportScore (analyzeStrings apps u).neutral_analysis.usage_patterns * 0.3) ∧
    (∀ c e, (c, e) ∈ (analyzeStrings apps u).neutral_analysis.usage_patterns →
      ∃ w, List.lookup c neutral_behavior_weights = some w ∧
        ∃ m0 ms, e.apps = m0 :: ms ∧
          e.frequency = (List.lookup (m0 ++ "_orders_per_month") u).getD 5 ∧
          e.aov = (List.lookup (m0 ++ "_avg_order_value") u).getD 200 ∧
          e.monthly_spend =
            (List.lookup (m0 ++ "_monthly_spend") u).getD (e.frequency * e.aov) ∧
          e.behavioral_score = e.frequency * w.1 + (e.aov / 100) * w.2.1 +
            (e.monthly_spend / 1000) * w.2.2) ∧
    ((List.lookup "food_delivery"
        (analyzeStrings ["zomato"] zomato_usage).neutral_analysis.usage_patterns).map
      (fun e => e.behavioral_score) = some 0.974 ∧
     (analyzeStrings ["zomato"] zomato_usage).neutral_analysis.spending = 0.974 ∧
     (analyzeStrings ["zomato"] zomato_usage).neutral_analysis.geographic = 0.487 ∧
     (analyzeStrings ["zomato"] zomato_usage).neutral_analysis.lifestyle = 0.2922 ∧
     (analyzeStrings ["zomato"] zomato_usage).spending_tier =
       "Basic (₹5,000-15,000 monthly)" ∧
     (analyzeStrings ["zomato"] zomato_usage).geographic_tier =
       "Tier 2 City (Pune, Hyderabad, Chennai, etc.)" ∧
     (analyzeStrings ["zomato"] zomato_usage).lifestyle_category =
       "Entertainment/Social") := by
  refine ⟨⟨?_, ?_, ?_⟩, ?_, by decide, by decide, by decide, by decide, by decide,
    by decide, by decide⟩
  · rw [analyzeStrings_def, core_neutral, neutral_eq]
  · rw [analyzeStrings_def, core_neutral, neutral_eq]
  · rw [analyzeStrings_def, core_neutral, neutral_eq]
  · intro c e he
    rw [analyzeStrings_def, core_neutral, neutral_eq] at he
    rcases List.mem_filterMap.mp he with ⟨cat, _, hent⟩
    rcases neutralEntry_some_spec hent with
      ⟨_, w, hw, m0, ms, happ, _, hfreq, haov, hspend, hscore⟩
    exact ⟨w, hw, m0, ms, happ, hfreq, haov, hspend, hscore⟩

/-- Witness for C7: the zomato entry of the scenario satisfies the
behavioural-score formula. -/
theorem claim_c7_neutral_behavior_witness :
    ("food_delivery",
      ({ apps := ["zomato"], frequency := 8, aov := 350, monthly_spend := 2800,
         behavioral_score := 0.974 } : UsageEntry)) ∈
      (analyzeStrings ["zomato"] zomato_usage).neutral_analysis.usage_patterns ∧
    (∃ w, List.lookup "food_delivery" neutral_behavior_weights = some w ∧
      ∃ m0 ms,
        (({ apps := ["zomato"], frequency := 8, aov := 350, monthly_spend := 2800,
            behavioral_score := 0.974 } : UsageEntry)).apps = m0 :: ms ∧
        (({ apps := ["zomato"], frequency := 8, aov := 350, monthly_spend := 2800,
            behavioral_score := 0.974 } : UsageEntry)).frequency =
          (List.lookup (m0 ++ "_orders_per_month") zomato_usage).getD 5 ∧
        (({ apps := ["zomato"], frequency := 8, aov := 350, monthly_spend := 2800,
            behavioral_score := 0.974 } : UsageEntry)).aov =
          (List.lookup (m0 ++ "_avg_order_value") zomato_usage).getD 200 ∧
        (({ apps := ["zomato"], frequency := 8, aov := 350, monthly_spend := 2800,
            behavioral_score := 0.974 } : UsageEntry)).monthly_spend =
          (List.lookup (m0 ++ "_monthly_spend") zomato_usage).getD (8 * 350) ∧
        (({ apps := ["zomato"], frequency := 8, aov := 350, monthly_spend := 2800,
            behavioral_score := 0.974 } : UsageEntry)).behavioral_score =
          8 * w.1 + (350 / 100) * w.2.1 + (2800 / 1000) * w.2.2) :=
  ⟨by decide,
   by
    rcases (claim_c7_neutral_behavior ["zomato"] zomato_usage).2.1 "food_delivery"
        { apps := ["zomato"], frequency := 8, aov := 350, monthly_spend := 2800,
          behavioral_score := 0.974 } (by decide) with
      ⟨w, hw, m0, ms, happ, hfreq, haov, hspend, hscore⟩
    exact ⟨w, hw, m0, ms, happ, hfreq, haov, hspend, hscore⟩⟩

/-- C8: appending one tier_a_premium discriminator app that is normalized and
not already present never decreases the resulting spending score. -/
theorem claim_c8_tier_a_monotone (apps : List String) (u : List (String × ℚ))
    (x : String) (hx : x ∈ tier_a_premium_apps)
    (hnew : x ∉ apps.map normalize_name) :
    (analyzeStrings apps u).spending_score ≤
      (analyzeStrings (apps ++ [x]) u).spending_score := by
  have hfix : normalize_name x = x :=
    (by decide : ∀ a ∈ tier_a_premium_apps, normalize_name a = a) x hx
  have hmap : (apps ++ [x]).map normalize_name = apps.map normalize_name ++ [x] := by
    rw [List.map_append, List.map_cons, List.map_nil, hfix]
  have hnA : ∀ cat ∈ neutral_apps, x ∉ cat.2 :=
    (by decide : ∀ a ∈ tier_a_premium_apps, ∀ cat ∈ neutral_apps, a ∉ cat.2) x hx
  have hnB : x ∉ tier_b_mainstream_apps :=
    (by decide : ∀ a ∈ tier_a_premium_apps, a ∉ tier_b_mainstream_apps) x hx
  have hnC : x ∉ tier_c_budget_apps :=
    (by decide : ∀ a ∈ tier_a_premium_apps, a ∉ tier_c_budget_apps) x hx
  have hndA : tier_a_premium_apps.Nodup := by decide
  have hneutral : _analyze_neutral_apps (apps.map normalize_name ++ [x]) u =
      _analyze_neutral_apps (apps.map normalize_name) u := by
    rw [neutral_eq, neutral_eq]
    have hr : neutralReport (apps.map normalize_name ++ [x]) u neutral_apps =
        neutralReport (apps.map normalize_name) u neutral_apps := by
      unfold neutralReport
      apply filterMap_congr_fun
      intro cat hcat
      unfold neutralEntry
      rw [filter_append_single_not_mem (hnA cat hcat)]
    rw [hr]
  have hspend : (_analyze_discriminators (apps.map normalize_name ++ [x])).spending =
      (_analyze_discriminators (apps.map normalize_name)).spending + 1 := by
    rw [disc_eq, disc_eq]
    dsimp only
    unfold matchCount
    rw [length_filter_append_single hndA hx hnew,
      filter_append_single_not_mem hnB, filter_append_single_not_mem hnC]
    push_cast
    ring
  rw [analyzeStrings_def, analyzeStrings_def, core_spending_score, core_spending_score,
    hmap, hneutral, hspend,
    (by ring : (_analyze_discriminators (apps.map normalize_name)).spending + 1 +
        (_analyze_neutral_apps (apps.map normalize_name) u).spending =
      (_analyze_discriminators (apps.map normalize_name)).spending +
        (_analyze_neutral_apps (apps.map normalize_name) u).spending + 1),
    round2_add_one]
  linarith

/-- Witness for C8: adding zerodha to [cred] does not decrease the spending
score. -/
theorem claim_c8_tier_a_monotone_witness :
    "zerodha" ∈ tier_a_premium_apps ∧
    "zerodha" ∉ ["cred"].map normalize_name ∧
    (analyzeStrings ["cred"] []).spending_score ≤
      (analyzeStrings ["cred", "zerodha"] []).spending_score :=
  ⟨by decide, by decide, claim_c8_tier_a_monotone ["cred"] [] "zerodha" (by decide) (by decide)⟩

/-- C9: appending a duplicate of an app identifier already present in the
normalized list leaves the entire analysis result unchanged. -/
theorem claim_c9_duplicates_no_double_count (apps : List String)
    (u : List (String × ℚ)) (y : String)
    (h : normalize_name y ∈ apps.map normalize_name) :
    analyzeStrings (apps ++ [y]) u = analyzeStrings apps u := by
  rw [analyzeStrings_def, analyzeStrings_def, List.map_append, List.map_cons, List.map_nil]
  apply analyze_core_congr
  intro a
  constructor
  · intro ha
    rcases List.mem_append.mp ha with h1 | h1
    · exact h1
    · rw [List.mem_singleton] at h1
      rw [h1]
      exact h
  · intro ha
    exact List.mem_append_left _ ha

/-- Witness for C9: appending "CRED" (which normalizes to the already present
"cred") leaves the result unchanged. -/
theorem claim_c9_duplicates_witness :
    normalize_name "CRED" ∈ ["cred"].map normalize_name ∧
    analyzeStrings ["cred", "CRED"] [] = analyzeStrings ["cred"] [] :=
  ⟨by decide, claim_c9_duplicates_no_double_count ["cred"] [] "CRED" (by decide)⟩

/-- C10: the confidence depends only on which apps are installed, never on
the behavioural usage values: two calls with the same app list and different
usage mappings return equal confidence. -/
theorem claim_c10_confidence_usage_independent (apps : List String)
    (u1 u2 : List (String × ℚ)) :
    (analyzeStrings apps u1).confidence = (analyzeStrings apps u2).confidence := by
  rw [analyzeStrings_def, analyzeStrings_def, confidence_core, confidence_core]
  have ht : total_strength_of (analyze_core (apps.map normalize_name) u1) =
      total_strength_of (analyze_core (apps.map normalize_name) u2) := by
    unfold total_strength_of
    rw [core_disc, core_disc, core_neutral, core_neutral, neutral_eq, neutral_eq]
    dsimp only
    rw [report_length_indep _ u1 u2]
  rw [ht]

/-- Witness for C2 at the boundary score 4.0: it resolves to Premium. -/
theorem claim_c2_tier_resolver_steps_witness :
    _get_spending_tier 4.0 = "Premium (₹50,000+ monthly)" :=
  (claim_c2_tier_resolver_steps 4.0).1.mpr (by norm_num)

/-- Witness for C5 (amended): the weighted, matched category food_delivery
has a usage entry for the input ["zomato"]. -/
theorem claim_c5_usage_report_amended_witness :
    ∃ e, ("food_delivery", e) ∈
      (analyzeStrings ["zomato"] []).neutral_analysis.usage_patterns :=
  (claim_c5_usage_report_amended ["zomato"] [] "food_delivery").mpr
    ⟨["zomato", "swiggy", "blinkit", "zepto"], by decide, by decide, by decide⟩

/-- Witness for C10: the zomato scenario and the empty usage mapping give the
same confidence for the same app list. -/
theorem claim_c10_confidence_usage_independent_witness :
    (analyzeStrings ["zomato"] zomato_usage).confidence =
      (analyzeStrings ["zomato"] []).confidence :=
  claim_c10_confidence_usage_independent ["zomato"] zomato_usage []
